import Mathlib

/-!
Verification development for the `s3storage` Go package (levmv/go-s3-storage).

The package is a thin façade over an S3-style object store.  We embed the
package's pure decision logic shallowly:

* `GoError` models Go error values as they occur in this package: the
  `ErrNotFound` sentinel, the backend's typed errors (`*types.NoSuchKey`,
  `*types.NotFound`, a generic `smithy.APIError`), `io.EOF` /
  `io.ErrUnexpectedEOF`, opaque errors, and `fmt.Errorf("...: %w", err)`
  wrapping.  `errors.As` / `errors.Is` become recursive searches through
  the wrap chain.
* `Reader` models an `io.Reader` as the byte sequence it will yield,
  optionally followed by a terminal error; `readFull` embeds
  `io.ReadFull(r, buf)` on such a reader.
* `Save`, `Open`, `Download`, `Exists`, `Delete` are translated from the
  source file `s3storage.go`; the AWS-SDK calls they delegate to are passed
  in as explicit arguments (for the error-translation logic) or modelled
  from the spec's backend-gateway contract (for the round-trip property).
-/

namespace s3storage

/-- Go error values as used by this package.  `errNotFound` is the package's
`ErrNotFound` sentinel; `noSuchKey` is `*types.NoSuchKey`; `typesNotFound`
is `*types.NotFound`; `apiError` is a generic `smithy.APIError` with code and
message; `eof` / `unexpectedEOF` are `io.EOF` / `io.ErrUnexpectedEOF`;
`generic` is any other leaf error (an arbitrary Go error value); `wrap` is `fmt.Errorf("msg: %w", cause)`. -/
inductive GoError where
  | errNotFound : GoError
  | noSuchKey : GoError
  | typesNotFound : GoError
  | apiError (code msg : String) : GoError
  | eof : GoError
  | unexpectedEOF : GoError
  | generic (msg : String) : GoError
  | wrap (msg : String) (cause : GoError) : GoError
deriving DecidableEq, Repr

/-- Model of `errors.As(err, &er)` for `er : *types.NoSuchKey`: searches the wrap
chain for a `noSuchKey` leaf. -/
def asNoSuchKey : GoError → Bool
  | .noSuchKey => true
  | .wrap _ cause => asNoSuchKey cause
  | _ => false

/-- Model of `errors.As(err, &notFound)` for `notFound : *types.NotFound`. -/
def asTypesNotFound : GoError → Bool
  | .typesNotFound => true
  | .wrap _ cause => asTypesNotFound cause
  | _ => false

/-- Model of `errors.As(err, &apiErr)` for `apiErr : smithy.APIError`, returning the
code and message when found. -/
def asAPIError : GoError → Option (String × String)
  | .apiError code msg => some (code, msg)
  | .wrap _ cause => asAPIError cause
  | _ => none

/-- Model of `errors.Is(e, target)`: `e` equals `target` or unwraps to it. -/
def errIs (e target : GoError) : Bool :=
  if e = target then true
  else match e with
    | .wrap _ cause => errIs cause target
    | _ => false

/-- An `io.Reader` modelled by the byte sequence it yields.  `ok bs` yields
`bs` and then `io.EOF`; `failing bs e` yields `bs` and then the error `e`. -/
inductive Reader where
  | ok (bytes : List Nat) : Reader
  | failing (bytes : List Nat) (e : GoError) : Reader
deriving DecidableEq, Repr

/-- All bytes obtainable from the reader before exhaustion or its error. -/
def Reader.bytes : Reader → List Nat
  | .ok bs => bs
  | .failing bs _ => bs

/-- Model of `io.MultiReader(bytes.NewReader(pre), r)`: yields `pre` then whatever
`r` yields. -/
def Reader.prepend (pre : List Nat) : Reader → Reader
  | .ok bs => .ok (pre ++ bs)
  | .failing bs e => .failing (pre ++ bs) e

/-- Result of `io.ReadFull(r, buf)`: the bytes read (`buf[:n]`), the reader
state afterwards, and the returned error if any. -/
structure ReadFullResult where
  buf : List Nat
  rest : Reader
  err : Option GoError
deriving DecidableEq, Repr

/-- Model of `io.ReadFull(r, buf)` with `len(buf) = n` on the modelled reader:
fills `buf` from `r`; returns `io.EOF` when nothing was read,
`io.ErrUnexpectedEOF` when the stream ended with `0 < read < n`, the
reader's own error when it fails inside the window, and no error when the
window was filled. -/
def readFull (r : Reader) (n : Nat) : ReadFullResult :=
  match r with
  | .ok bs =>
    { buf := bs.take n
      rest := .ok (bs.drop n)
      err := if n ≤ bs.length then none
             else if bs.length = 0 then some .eof
             else some .unexpectedEOF }
  | .failing bs e =>
    if n ≤ bs.length then
      { buf := bs.take n, rest := .failing (bs.drop n) e, err := none }
    else
      { buf := bs, rest := .failing [] e, err := some e }

/-- The struct `type SaveOptions struct { ContentType string; AutoContentType bool }` -/
structure SaveOptions where
  ContentType : String := ""
  AutoContentType : Bool := false
deriving DecidableEq, Repr

/-- The type `SaveOption func(*SaveOptions)`. -/
def SaveOption := SaveOptions → SaveOptions

/-- Option `WithContentType(ct)` sets the explicit content type. -/
def WithContentType (ct : String) : SaveOption :=
  fun o => { o with ContentType := ct }

/-- Option `WithAutoContentType()` enables sniffing. -/
def WithAutoContentType : SaveOption :=
  fun o => { o with AutoContentType := true }

/-- The options-resolution loop at the top of `Save`:
`options := SaveOptions{}; for _, opt := range opts { opt(&options) }`. -/
def resolveOptions (opts : List SaveOption) : SaveOptions :=
  opts.foldl (fun o f => f o) {}

/-- The `s3.PutObjectInput` that `Save` hands to `uploader.Upload`:
bucket, key, the body reader, and the content type if one was set. -/
structure PutObjectInput where
  bucket : String
  key : String
  body : Reader
  contentType : Option String
deriving DecidableEq, Repr

/-- The sniffing phase of `Save` (lines 99-118 of `s3storage.go`): resolve
options; when no explicit content type is set and `AutoContentType` is on,
read up to 512 bytes, fail on any read error other than `io.EOF` /
`io.ErrUnexpectedEOF`, classify via `detect` (= `http.DetectContentType`)
when at least one byte was read, and reconstruct the reader with the
sniffed bytes re-attached; then build the `PutObjectInput` (lines 120-128),
attaching the content type only when non-empty. -/
def Save (detect : List Nat → String) (bucket key : String)
    (r : Reader) (opts : List SaveOption) : Except GoError PutObjectInput :=
  let options := resolveOptions opts
  let sniffed : Except GoError (SaveOptions × Reader) :=
    if options.ContentType = "" ∧ options.AutoContentType = true then
      let rf := readFull r 512
      let cont : Except GoError (SaveOptions × Reader) :=
        if rf.buf.length > 0 then
          .ok ({ options with ContentType := detect rf.buf },
               Reader.prepend rf.buf rf.rest)
        else
          .ok (options, rf.rest)
      match rf.err with
      | some e =>
        if e = .unexpectedEOF ∨ e = .eof then cont
        else .error (.wrap "failed to read file header for content-type detection" e)
      | none => cont
    else
      .ok (options, r)
  sniffed.map fun p =>
    { bucket := bucket, key := key, body := p.2
      contentType := if p.1.ContentType ≠ "" then some p.1.ContentType else none }

/-- The error-handling tail of `Open` (lines 143-156): a `NoSuchKey` backend
error becomes `ErrNotFound`; any other backend error is wrapped with the
key and bucket; a successful response is passed through. -/
def Open (res : Except GoError (List Nat)) (bucket key : String) :
    Except GoError (List Nat) :=
  match res with
  | .ok body => .ok body
  | .error err =>
    if asNoSuchKey err then .error .errNotFound
    else .error (.wrap ("failed to open " ++ key ++ " from " ++ bucket) err)

/-- A `io.WriterAt` sink: maps an offset to the byte written there, if any. -/
def Sink := Nat → Option Nat

/-- The error-handling tail of `Download` (lines 159-172), over the result
of `downloader.Download`: `NoSuchKey` becomes `ErrNotFound`; other errors
are wrapped with the key and bucket. -/
def Download (res : Except GoError Sink) (bucket key : String) :
    Except GoError Sink :=
  match res with
  | .ok w => .ok w
  | .error err =>
    if asNoSuchKey err then .error .errNotFound
    else .error (.wrap ("failed to download " ++ key ++ " from " ++ bucket) err)

/-- Embedding of `Exists` (lines 175-188), over the result of `client.HeadObject`:
success gives `(true, nil)`; a `*types.NotFound` error gives `(false, nil)`;
any other error gives `(false, wrapped)`. -/
def ExistsCheck (res : Except GoError Unit) (bucket key : String) :
    Bool × Option GoError :=
  match res with
  | .ok _ => (true, none)
  | .error err =>
    if asTypesNotFound err then (false, none)
    else (false, some (.wrap ("failed to check existence of " ++ key ++ " in " ++ bucket) err))

/-- Embedding of `Delete` (lines 191-200), over the result of `client.DeleteObject`:
every backend error is wrapped generically; there is no not-found
translation on this path. -/
def Delete (res : Except GoError Unit) (bucket key : String) : Option GoError :=
  match res with
  | .ok _ => none
  | .error err =>
    some (.wrap ("couldn't delete file " ++ key ++ " from " ++ bucket) err)

/-- The struct `Config` (lines 22-28): bucket, region, endpoint and static
credentials.  It has no field for part size or worker concurrency. -/
structure Config where
  Bucket : String := ""
  Region : String := ""
  Endpoint : String := ""
  AccessKey : String := ""
  SecretKey : String := ""
deriving DecidableEq, Repr

/-- Part size and worker count of a `manager.Uploader` / `manager.Downloader`. -/
structure PipelineSettings where
  partSize : Nat
  concurrency : Nat
deriving DecidableEq, Repr

/-- The uploader configuration closure in `NewS3Storage` (lines 77-80):
`u.PartSize = 5 * 1024 * 1024; u.Concurrency = 1`, independent of `Config`. -/
def uploaderSettings : PipelineSettings :=
  { partSize := 5 * 1024 * 1024, concurrency := 1 }

/-- The downloader configuration closure in `NewS3Storage` (lines 83-86):
`d.PartSize = 5 * 1024 * 1024; d.Concurrency = 1`, independent of `Config`. -/
def downloaderSettings : PipelineSettings :=
  { partSize := 5 * 1024 * 1024, concurrency := 1 }

/-- The configuration-relevant state of an `S3Storage` value as built by
`NewS3Storage` (lines 88-93): the bucket plus the two pipeline settings. -/
structure S3Storage where
  Bucket : String
  uploader : PipelineSettings
  downloader : PipelineSettings
deriving DecidableEq, Repr

/-- Embedding of `NewS3Storage` (lines 57-94): copies the bucket from the
config and installs the two fixed pipeline settings.  (Credential/region
loading is a passthrough to the external AWS config loader and carries no
pipeline configuration.) -/
def NewS3Storage (cfg : Config) : S3Storage :=
  { Bucket := cfg.Bucket, uploader := uploaderSettings, downloader := downloaderSettings }

/-- Modelled from the spec: the backend object store the gateway talks to,
as a map from (container, key) to the stored byte sequence.  The AWS-SDK
`manager.Uploader` / `manager.Downloader` and the S3 service itself are
external collaborators, not part of this repository's source. -/
def Store := String → String → Option (List Nat)

/-- Modelled from the spec: `PutObject(container, key, body)` on the backend
commits the whole byte sequence atomically under `(container, key)`. -/
def putObject (st : Store) (bucket key : String) (body : List Nat) : Store :=
  fun b k => if b = bucket ∧ k = key then some body else st b k

/-- Modelled from the spec: `uploader.Upload` drains the body reader and
commits the bytes; a body reader that fails mid-stream fails the upload
with its error and commits nothing. -/
def uploaderUpload (st : Store) (input : PutObjectInput) : Except GoError Store :=
  match input.body with
  | .ok bs => .ok (putObject st input.bucket input.key bs)
  | .failing _ e => .error e

/-- The upload error translation in `Save` (lines 130-138): a `smithy.APIError`
is reported with its code and message; any other error is wrapped generically. -/
def wrapUploadError (bucket key : String) (err : GoError) : GoError :=
  match asAPIError err with
  | some cm =>
    .wrap ("s3 upload failed for bucket " ++ bucket ++ ", key " ++ key ++ ": "
           ++ cm.2 ++ " (AWS code: " ++ cm.1 ++ ")") err
  | none => .wrap ("couldn't upload file " ++ key ++ " to " ++ bucket) err

/-- Full `Save` against the modelled backend: the sniffing phase, then
`uploader.Upload`, then the upload error translation; returns the updated
store on success. -/
def SaveToStore (detect : List Nat → String) (st : Store) (bucket key : String)
    (r : Reader) (opts : List SaveOption) : Except GoError Store :=
  match Save detect bucket key r opts with
  | .error e => .error e
  | .ok input =>
    match uploaderUpload st input with
    | .ok st2 => .ok st2
    | .error err => .error (wrapUploadError bucket key err)

/-- One `WriteAt` call on the sink: writes `data` at offset `off`. -/
def writeAt (w : Sink) (off : Nat) (data : List Nat) : Sink :=
  fun i => if off ≤ i ∧ i - off < data.length then data[i - off]? else w i

/-- Applies a list of `(offset, bytes)` writes to the sink in order. -/
def applyWrites (w : Sink) : List (Nat × List Nat) → Sink
  | [] => w
  | (off, d) :: rest => applyWrites (writeAt w off d) rest

/-- Modelled from the spec: the download pipeline's split of an object of
known content into parts of size `ps`, each paired with its destination
offset, starting at offset `off`. -/
def partWrites (ps : Nat) (off : Nat) (l : List Nat) : List (Nat × List Nat) :=
  if _h : ps = 0 ∨ l = [] then []
  else (off, l.take ps) :: partWrites ps (off + ps) (l.drop ps)
termination_by l.length
decreasing_by
  simp only [List.length_drop]
  rcases Nat.eq_zero_or_pos ps with h0 | h0
  · exact absurd (Or.inl h0) _h
  · have : l ≠ [] := fun hl => absurd (Or.inr hl) _h
    have : 0 < l.length := List.length_pos.mpr this
    omega

/-- Modelled from the spec: `downloader.Download(w, GetObjectInput{bucket,key})`
— a missing object yields the backend's `NoSuchKey` error; otherwise the
object is split into parts of the configured size and each part is written
at its own offset into the sink. -/
def downloaderDownload (st : Store) (bucket key : String) (w : Sink) :
    Except GoError Sink :=
  match st bucket key with
  | none => .error .noSuchKey
  | some bs => .ok (applyWrites w (partWrites downloaderSettings.partSize 0 bs))

/-- Full `Download` against the modelled backend: `downloader.Download`
followed by the error-translation tail. -/
def DownloadFromStore (st : Store) (bucket key : String) (w : Sink) :
    Except GoError Sink :=
  Download (downloaderDownload st bucket key w) bucket key

/-- The all-empty sink. -/
def emptySink : Sink := fun _ => none

/-- Reflexivity of the modelled `errors.Is`. -/
theorem errIs_self (t : GoError) : errIs t t = true := by
  unfold errIs
  rw [if_pos rfl]

/-- Wrapping with `fmt.Errorf("...: %w", cause)` keeps the cause reachable by
the modelled `errors.Is`. -/
theorem errIs_wrap (m : String) (c t : GoError) (h : errIs c t = true) :
    errIs (.wrap m c) t = true := by
  unfold errIs
  split
  · rfl
  · exact h

/-- Applying the part-writes of `l` starting at offset `off` maps every
destination offset inside the written range to the corresponding byte of `l`
and leaves the rest of the sink untouched. -/
theorem applyWrites_partWrites (ps : Nat) (hps : 0 < ps) (n : Nat) :
    ∀ (l : List Nat), l.length ≤ n → ∀ (off : Nat) (w : Sink) (i : Nat),
      applyWrites w (partWrites ps off l) i
        = if off ≤ i ∧ i - off < l.length then l[i - off]? else w i := by
  induction n with
  | zero =>
    intro l hl off w i
    have hnil : l = [] := List.length_eq_zero.mp (Nat.le_zero.mp hl)
    subst hnil
    rw [partWrites]
    simp [applyWrites]
  | succ n ih =>
    intro l hl off w i
    by_cases hl0 : l = []
    · subst hl0
      rw [partWrites]
      simp [applyWrites]
    · have hcond : ¬ (ps = 0 ∨ l = []) := by
        rintro (h | h)
        · omega
        · exact hl0 h
      rw [partWrites, dif_neg hcond]
      have hlen : 0 < l.length := List.length_pos.mpr hl0
      simp only [applyWrites]
      rw [ih (l.drop ps) (by simp only [List.length_drop]; omega)]
      simp only [List.length_drop, writeAt, List.length_take]
      by_cases h1 : off + ps ≤ i ∧ i - (off + ps) < l.length - ps
      · rw [if_pos h1, List.getElem?_drop]
        have he : ps + (i - (off + ps)) = i - off := by omega
        rw [he, if_pos (by constructor <;> omega)]
      · rw [if_neg h1]
        by_cases h2 : off ≤ i ∧ i - off < min ps l.length
        · rw [if_pos h2, List.getElem?_take_of_lt (by omega), if_pos (by constructor <;> omega)]
        · rw [if_neg h2, if_neg (by intro h3; apply h2; constructor <;> omega)]

/-- C1: when `Save` runs with `AutoContentType` enabled and no explicit
content type, the body reader it hands to the upload step yields exactly the
original stream's byte sequence — the sniffed prefix of up to 512 bytes
followed by whatever remained unread, with nothing lost, duplicated or
reordered, including for streams shorter than the sniff window. -/
theorem C1_save_sniff_preserves_stream (d : List Nat → String)
    (bucket key : String) (r : Reader) (opts : List SaveOption)
    (hct : (resolveOptions opts).ContentType = "")
    (hauto : (resolveOptions opts).AutoContentType = true)
    (input : PutObjectInput)
    (hok : Save d bucket key r opts = .ok input) :
    input.body.bytes = r.bytes := by
  cases r with
  | ok bs =>
    by_cases hb : 512 ≤ bs.length
    · simp only [Save, readFull, if_pos (And.intro hct hauto), if_pos hb] at hok
      by_cases hz : (bs.take 512).length > 0
      · simp only [if_pos hz, Except.map] at hok
        cases hok
        simp [Reader.prepend, Reader.bytes]
      · simp only [if_neg hz, Except.map] at hok
        cases hok
        simp only [Reader.bytes]
        have : bs.length = 0 := by
          simp only [List.length_take] at hz
          omega
        simp [List.eq_nil_of_length_eq_zero this]
    · by_cases h0 : bs.length = 0
      · simp only [Save, readFull, if_pos (And.intro hct hauto), if_neg hb, if_pos h0,
          Except.map] at hok
        have hz : ¬ ((bs.take 512).length > 0) := by
          simp only [List.length_take]
          omega
        simp only [if_neg hz] at hok
        cases hok
        simp [Reader.bytes, List.eq_nil_of_length_eq_zero h0]
      · simp only [Save, readFull, if_pos (And.intro hct hauto), if_neg hb, if_neg h0,
          Except.map] at hok
        have hz : (bs.take 512).length > 0 := by
          simp only [List.length_take]
          omega
        simp only [if_pos hz, if_pos (Or.inl rfl)] at hok
        cases hok
        simp [Reader.prepend, Reader.bytes]
  | failing bs e =>
    by_cases hb : 512 ≤ bs.length
    · simp only [Save, readFull, if_pos (And.intro hct hauto), if_pos hb] at hok
      by_cases hz : (bs.take 512).length > 0
      · simp only [if_pos hz, Except.map] at hok
        cases hok
        simp [Reader.prepend, Reader.bytes]
      · simp only [if_neg hz, Except.map] at hok
        cases hok
        simp only [Reader.bytes]
        have : bs.length = 0 := by
          simp only [List.length_take] at hz
          omega
        simp [List.eq_nil_of_length_eq_zero this]
    · simp only [Save, readFull, if_neg hb, if_pos (And.intro hct hauto), Except.map] at hok
      by_cases he : e = GoError.unexpectedEOF ∨ e = GoError.eof
      · simp only [if_pos he] at hok
        by_cases h0 : bs.length = 0
        · have hz : ¬ (bs.length > 0) := by omega
          simp only [if_neg hz] at hok
          cases hok
          simp [Reader.bytes, List.eq_nil_of_length_eq_zero h0]
        · have hz : bs.length > 0 := by omega
          simp only [if_pos hz] at hok
          cases hok
          simp [Reader.prepend, Reader.bytes]
      · simp only [if_neg he] at hok
        cases hok

/-- Witness for C1: a concrete two-byte stream sniffed and reproduced intact. -/
theorem C1_save_sniff_preserves_stream_witness :
    (resolveOptions [WithAutoContentType]).ContentType = ""
    ∧ (resolveOptions [WithAutoContentType]).AutoContentType = true
    ∧ Save (fun _ => "text/plain; charset=utf-8") "bucket" "a/b.txt"
        (Reader.ok [104, 105]) [WithAutoContentType]
        = .ok { bucket := "bucket", key := "a/b.txt",
                body := Reader.ok [104, 105],
                contentType := some "text/plain; charset=utf-8" }
    ∧ ({ bucket := "bucket", key := "a/b.txt", body := Reader.ok [104, 105],
         contentType := some "text/plain; charset=utf-8" } : PutObjectInput).body.bytes
        = (Reader.ok [104, 105]).bytes :=
  ⟨rfl, rfl, rfl,
   C1_save_sniff_preserves_stream (fun _ => "text/plain; charset=utf-8")
     "bucket" "a/b.txt" (Reader.ok [104, 105]) [WithAutoContentType] rfl rfl
     { bucket := "bucket", key := "a/b.txt", body := Reader.ok [104, 105],
       contentType := some "text/plain; charset=utf-8" } rfl⟩

/-- C2: saving a byte sequence of any length `N` (0, below, at or above the
5 MiB part size) and then downloading the same key into an empty
random-access sink reproduces exactly the `N` saved bytes at the same
offsets, and nothing else. -/
theorem C2_save_download_roundtrip (d : List Nat → String)
    (bucket key : String) (bs : List Nat) (st : Store) :
    SaveToStore d st bucket key (Reader.ok bs) [] = .ok (putObject st bucket key bs)
    ∧ DownloadFromStore (putObject st bucket key bs) bucket key emptySink
        = .ok (fun i => bs[i]?) := by
  constructor
  · have hc : ¬ ((resolveOptions ([] : List SaveOption)).ContentType = ""
        ∧ (resolveOptions ([] : List SaveOption)).AutoContentType = true) := by
      rintro ⟨-, h⟩
      simp [resolveOptions] at h
    simp only [SaveToStore, Save, if_neg hc, Except.map, uploaderUpload]
  · have hw : applyWrites emptySink (partWrites downloaderSettings.partSize 0 bs)
        = fun i => bs[i]? := by
      funext i
      rw [applyWrites_partWrites downloaderSettings.partSize
          (by norm_num [downloaderSettings]) bs.length bs le_rfl 0 emptySink i]
      by_cases hi : i < bs.length
      · rw [if_pos ⟨Nat.zero_le i, by omega⟩, Nat.sub_zero]
      · rw [if_neg (by omega), List.getElem?_eq_none (by omega)]
        rfl
    have hs : putObject st bucket key bs bucket key = some bs := by
      simp [putObject]
    simp only [DownloadFromStore, downloaderDownload, hs, hw, Download]

/-- C3: `Open` and `Download` translate a backend `NoSuchKey` signal into the
package's `ErrNotFound`; every other backend failure becomes a generic
wrapped error whose message carries the key and the bucket and whose cause
stays reachable through `errors.Is`. -/
theorem C3_open_download_error_translation (bucket key : String)
    (err : GoError) (hn : asNoSuchKey err = false) :
    Open (.error err) bucket key
      = .error (.wrap ("failed to open " ++ key ++ " from " ++ bucket) err)
    ∧ Download (.error err) bucket key
      = .error (.wrap ("failed to download " ++ key ++ " from " ++ bucket) err)
    ∧ errIs (.wrap ("failed to open " ++ key ++ " from " ++ bucket) err) err = true
    ∧ errIs (.wrap ("failed to download " ++ key ++ " from " ++ bucket) err) err = true
    ∧ (∀ e2 : GoError, asNoSuchKey e2 = true →
        Open (.error e2) bucket key = .error .errNotFound
        ∧ Download (.error e2) bucket key = .error .errNotFound) := by
  refine ⟨?_, ?_, ?_, ?_, ?_⟩
  · simp [Open, hn]
  · simp [Download, hn]
  · exact errIs_wrap _ _ _ (errIs_self err)
  · exact errIs_wrap _ _ _ (errIs_self err)
  · intro e2 h2
    constructor
    · simp [Open, h2]
    · simp [Download, h2]

/-- Witness for C3 at a concrete non-not-found backend failure. -/
theorem C3_open_download_error_translation_witness :
    asNoSuchKey (GoError.apiError "AccessDenied" "denied") = false
    ∧ (Open (.error (GoError.apiError "AccessDenied" "denied")) "bkt" "obj"
        = .error (.wrap ("failed to open " ++ "obj" ++ " from " ++ "bkt")
            (GoError.apiError "AccessDenied" "denied"))
      ∧ Download (.error (GoError.apiError "AccessDenied" "denied")) "bkt" "obj"
        = .error (.wrap ("failed to download " ++ "obj" ++ " from " ++ "bkt")
            (GoError.apiError "AccessDenied" "denied"))
      ∧ errIs (.wrap ("failed to open " ++ "obj" ++ " from " ++ "bkt")
            (GoError.apiError "AccessDenied" "denied"))
          (GoError.apiError "AccessDenied" "denied") = true
      ∧ errIs (.wrap ("failed to download " ++ "obj" ++ " from " ++ "bkt")
            (GoError.apiError "AccessDenied" "denied"))
          (GoError.apiError "AccessDenied" "denied") = true
      ∧ (∀ e2 : GoError, asNoSuchKey e2 = true →
          Open (.error e2) "bkt" "obj" = .error .errNotFound
          ∧ Download (.error e2) "bkt" "obj" = .error .errNotFound)) :=
  ⟨rfl, C3_open_download_error_translation "bkt" "obj"
    (GoError.apiError "AccessDenied" "denied") rfl⟩

/-- C4: `Exists` returns `(true, nil)` on a successful head call, the boolean
result `(false, nil)` — not an error — when the backend signals not-found,
and `(false, wrapped-error)` for every other backend failure, with the cause
still reachable. -/
theorem C4_exists_not_found_is_boolean (bucket key : String)
    (err : GoError) (hn : asTypesNotFound err = false) :
    ExistsCheck (.ok ()) bucket key = (true, none)
    ∧ (∀ e2 : GoError, asTypesNotFound e2 = true →
        ExistsCheck (.error e2) bucket key = (false, none))
    ∧ ExistsCheck (.error err) bucket key
        = (false, some (.wrap ("failed to check existence of " ++ key ++ " in " ++ bucket) err))
    ∧ errIs (.wrap ("failed to check existence of " ++ key ++ " in " ++ bucket) err) err
        = true := by
  refine ⟨rfl, ?_, ?_, errIs_wrap _ _ _ (errIs_self err)⟩
  · intro e2 h2
    simp [ExistsCheck, h2]
  · simp [ExistsCheck, hn]

/-- Witness for C4 at a concrete non-not-found backend failure. -/
theorem C4_exists_not_found_is_boolean_witness :
    asTypesNotFound (GoError.generic "network down") = false
    ∧ (ExistsCheck (.ok ()) "bkt" "obj" = (true, none)
      ∧ (∀ e2 : GoError, asTypesNotFound e2 = true →
          ExistsCheck (.error e2) "bkt" "obj" = (false, none))
      ∧ ExistsCheck (.error (GoError.generic "network down")) "bkt" "obj"
          = (false, some (.wrap ("failed to check existence of " ++ "obj" ++ " in " ++ "bkt")
              (GoError.generic "network down")))
      ∧ errIs (.wrap ("failed to check existence of " ++ "obj" ++ " in " ++ "bkt")
            (GoError.generic "network down")) (GoError.generic "network down") = true) :=
  ⟨rfl, C4_exists_not_found_is_boolean "bkt" "obj" (GoError.generic "network down") rfl⟩

/-- C5: a sniff-window read error other than `io.EOF` / `io.ErrUnexpectedEOF`
makes the whole `Save` fail before any upload input is produced, while a
stream that merely runs out inside the window (any exhausted reader) never
makes `Save` fail. -/
theorem C5_sniff_read_failure_fatal (d : List Nat → String)
    (bucket key : String) (bs : List Nat) (e : GoError)
    (opts : List SaveOption)
    (hct : (resolveOptions opts).ContentType = "")
    (hauto : (resolveOptions opts).AutoContentType = true)
    (hlen : bs.length < 512)
    (he1 : e ≠ GoError.eof) (he2 : e ≠ GoError.unexpectedEOF) :
    Save d bucket key (Reader.failing bs e) opts
      = .error (.wrap "failed to read file header for content-type detection" e)
    ∧ ∀ bs2 : List Nat, (Save d bucket key (Reader.ok bs2) opts).isOk = true := by
  constructor
  · have hb : ¬ 512 ≤ bs.length := by omega
    have he : ¬ (e = GoError.unexpectedEOF ∨ e = GoError.eof) := by
      rintro (h | h)
      · exact he2 h
      · exact he1 h
    simp only [Save, readFull, if_pos (And.intro hct hauto), if_neg hb, if_neg he]
    rfl
  · intro bs2
    by_cases hb : 512 ≤ bs2.length
    · by_cases hz : (bs2.take 512).length > 0
      · simp only [Save, readFull, if_pos (And.intro hct hauto), if_pos hb, if_pos hz,
          Except.map, Except.isOk, Except.toBool]
      · simp only [Save, readFull, if_pos (And.intro hct hauto), if_pos hb, if_neg hz,
          Except.map, Except.isOk, Except.toBool]
    · by_cases h0 : bs2.length = 0
      · have hz : ¬ ((bs2.take 512).length > 0) := by
          simp only [List.length_take]
          omega
        simp only [Save, readFull, if_pos (And.intro hct hauto), if_neg hb, if_pos h0,
          if_neg hz, or_true, true_or, if_true, Except.map, Except.isOk, Except.toBool]
      · have hz : (bs2.take 512).length > 0 := by
          simp only [List.length_take]
          omega
        simp only [Save, readFull, if_pos (And.intro hct hauto), if_neg hb, if_neg h0,
          or_true, true_or, if_true, if_pos hz, Except.map, Except.isOk, Except.toBool]

/-- Witness for C5: a reader that fails with a disk error after one byte. -/
theorem C5_sniff_read_failure_fatal_witness :
    (resolveOptions [WithAutoContentType]).ContentType = ""
    ∧ (resolveOptions [WithAutoContentType]).AutoContentType = true
    ∧ ([7] : List Nat).length < 512
    ∧ GoError.generic "disk failure" ≠ GoError.eof
    ∧ GoError.generic "disk failure" ≠ GoError.unexpectedEOF
    ∧ (Save (fun _ => "application/pdf") "bkt" "obj"
          (Reader.failing [7] (GoError.generic "disk failure")) [WithAutoContentType]
        = .error (.wrap "failed to read file header for content-type detection"
            (GoError.generic "disk failure"))
      ∧ ∀ bs2 : List Nat,
          (Save (fun _ => "application/pdf") "bkt" "obj" (Reader.ok bs2)
            [WithAutoContentType]).isOk = true) :=
  ⟨rfl, rfl, by decide, by decide, by decide,
   C5_sniff_read_failure_fatal (fun _ => "application/pdf") "bkt" "obj" [7]
     (GoError.generic "disk failure") [WithAutoContentType] rfl rfl
     (by decide) (by decide) (by decide)⟩

/-- C6: a non-empty explicit content type always wins: sniffing is skipped
(the result does not depend on the detector and the reader is passed through
untouched) and the explicit content type is the one attached to the upload,
whether or not `AutoContentType` is also enabled. -/
theorem C6_explicit_content_type_wins (d d2 : List Nat → String)
    (bucket key : String) (r : Reader) (opts : List SaveOption)
    (hct : (resolveOptions opts).ContentType ≠ "") :
    Save d bucket key r opts
      = .ok { bucket := bucket, key := key, body := r,
              contentType := some (resolveOptions opts).ContentType }
    ∧ Save d bucket key r opts = Save d2 bucket key r opts := by
  have hc : ¬ ((resolveOptions opts).ContentType = ""
      ∧ (resolveOptions opts).AutoContentType = true) := by
    rintro ⟨h, -⟩
    exact hct h
  constructor
  · simp only [Save, if_neg hc, Except.map, if_pos hct]
  · simp only [Save, if_neg hc]

/-- Witness for C6: explicit `image/png` with `AutoContentType` also on. -/
theorem C6_explicit_content_type_wins_witness :
    (resolveOptions [WithContentType "image/png", WithAutoContentType]).ContentType ≠ ""
    ∧ (Save (fun _ => "x") "bkt" "obj" (Reader.ok [1, 2, 3])
          [WithContentType "image/png", WithAutoContentType]
        = .ok { bucket := "bkt", key := "obj", body := Reader.ok [1, 2, 3],
                contentType := some (resolveOptions
                  [WithContentType "image/png", WithAutoContentType]).ContentType }
      ∧ Save (fun _ => "x") "bkt" "obj" (Reader.ok [1, 2, 3])
          [WithContentType "image/png", WithAutoContentType]
        = Save (fun _ => "y") "bkt" "obj" (Reader.ok [1, 2, 3])
          [WithContentType "image/png", WithAutoContentType]) :=
  ⟨by decide,
   C6_explicit_content_type_wins (fun _ => "x") (fun _ => "y") "bkt" "obj"
     (Reader.ok [1, 2, 3]) [WithContentType "image/png", WithAutoContentType]
     (by decide)⟩

/-- C7: with sniffing enabled, a stream that yields zero bytes produces no
classification and no attached content type, and `Save` proceeds without
error past the sniffing step. -/
theorem C7_empty_stream_skips_sniffing (d : List Nat → String)
    (bucket key : String) (opts : List SaveOption)
    (hct : (resolveOptions opts).ContentType = "")
    (hauto : (resolveOptions opts).AutoContentType = true) :
    Save d bucket key (Reader.ok []) opts
      = .ok { bucket := bucket, key := key, body := Reader.ok [],
              contentType := none } := by
  simp only [Save, readFull, if_pos (And.intro hct hauto)]
  norm_num
  simp only [Except.map, hct]
  rfl

/-- Witness for C7 at the empty stream with `WithAutoContentType`. -/
theorem C7_empty_stream_skips_sniffing_witness :
    (resolveOptions [WithAutoContentType]).ContentType = ""
    ∧ (resolveOptions [WithAutoContentType]).AutoContentType = true
    ∧ Save (fun _ => "text/plain") "bkt" "obj" (Reader.ok []) [WithAutoContentType]
        = .ok { bucket := "bkt", key := "obj", body := Reader.ok [],
                contentType := none } :=
  ⟨rfl, rfl,
   C7_empty_stream_skips_sniffing (fun _ => "text/plain") "bkt" "obj"
     [WithAutoContentType] rfl rfl⟩

/-- Counterexample to C8: a backend `NoSuchKey` on the delete path is not
translated to `ErrNotFound`; `Delete` returns the generic wrapped error. -/
theorem C8_delete_translation_counterexample :
    Delete (.error GoError.noSuchKey) "b" "k" ≠ some GoError.errNotFound
    ∧ Delete (.error GoError.noSuchKey) "b" "k"
        = some (.wrap "couldn't delete file k from b" GoError.noSuchKey) := by
  constructor
  · decide
  · rfl

/-- C8 (amended): `Delete` performs no not-found translation: every backend
failure on the delete path, a `NoSuchKey` signal included, is returned as
the generic wrapped error carrying the key, the bucket and the inspectable
cause, and `ErrNotFound` is never returned. -/
theorem C8_delete_wraps_generically (bucket key : String) (err : GoError) :
    Delete (.error err) bucket key
      = some (.wrap ("couldn't delete file " ++ key ++ " from " ++ bucket) err)
    ∧ Delete (.error err) bucket key ≠ some GoError.errNotFound
    ∧ errIs (.wrap ("couldn't delete file " ++ key ++ " from " ++ bucket) err) err = true := by
  refine ⟨rfl, ?_, errIs_wrap _ _ _ (errIs_self err)⟩
  simp [Delete]

/-- Counterexample to C9: no construction configuration yields a part size or
worker concurrency other than the fixed 5 MiB / 1-worker values. -/
theorem C9_configurability_counterexample :
    ¬ ∃ cfg : Config,
      (NewS3Storage cfg).uploader.partSize ≠ 5 * 1024 * 1024
      ∨ (NewS3Storage cfg).uploader.concurrency ≠ 1
      ∨ (NewS3Storage cfg).downloader.partSize ≠ 5 * 1024 * 1024
      ∨ (NewS3Storage cfg).downloader.concurrency ≠ 1 := by
  rintro ⟨cfg, h | h | h | h⟩ <;> exact h rfl

/-- C9 (amended): part size and worker concurrency are not configurable:
`Config` carries only bucket, region, endpoint and credentials, and
`NewS3Storage` fixes both pipelines to 5 MiB parts with 1 worker for every
configuration. -/
theorem C9_fixed_pipeline_settings (cfg : Config) :
    NewS3Storage cfg
      = { Bucket := cfg.Bucket,
          uploader := { partSize := 5 * 1024 * 1024, concurrency := 1 },
          downloader := { partSize := 5 * 1024 * 1024, concurrency := 1 } } := rfl

/-- C10: `Save` resolves its options by applying them in list order to the
zero value, so the later of two options setting the same field wins; in
particular `WithContentType a` followed by `WithContentType b` resolves to
`b`. -/
theorem C10_options_applied_in_order (opts : List SaveOption) (a b ct : String) :
    resolveOptions opts = opts.foldl (fun o f => f o) {}
    ∧ (resolveOptions (opts ++ [WithContentType ct])).ContentType = ct
    ∧ (resolveOptions (opts ++ [WithAutoContentType])).AutoContentType = true
    ∧ (resolveOptions (opts ++ [WithContentType a, WithContentType b])).ContentType = b := by
  refine ⟨rfl, ?_, ?_, ?_⟩ <;>
    simp [resolveOptions, List.foldl_append, WithContentType, WithAutoContentType]

end s3storage
